import Mathlib

/-!
# Verification of the user-agent detection engine

Shallow embedding of the detection engine of `react-hook-useagent`
(`src/detectors/userAgentString.ts` [src/unnamed/part_005],
`src/detectors/device.ts`, `src/detectors/clientHints.ts`,
`src/constants/patterns.ts`, `src/utils/comparison.ts`) together with
theorems about browser disambiguation, device classification, rendering
engine lookup, the high-entropy merge and the structural equality check.

Strings are modelled as Lean `String`; the JavaScript regular expressions
used by the source are all of the shape "literal token followed by a
captured run of `[0-9.]`" or plain literal tests (optionally with the `i`
flag), so they are embedded as substring search plus `takeWhile` over the
character list, with the same leftmost-match semantics as `String.match`.
A `Navigator` value models exactly the fields the source reads:
`userAgent`, `maxTouchPoints` (absent ↦ `none`, matching the falsiness
check in the source) and the presence of the vendor `brave` capability.
-/

namespace UseAgent

/-- `true` when `pat` is a prefix of `s` (character lists). -/
def charsHavePre : List Char → List Char → Bool
  | _, [] => true
  | [], _ :: _ => false
  | c :: s, p :: ps => c == p && charsHavePre s ps

/-- `true` when `pat` occurs as a contiguous run inside `s`
(JS `RegExp.test` with a literal pattern). -/
def charsContain : List Char → List Char → Bool
  | [], pat => pat.isEmpty
  | c :: rest, pat => charsHavePre (c :: rest) pat || charsContain rest pat

/-- Case-sensitive literal substring test, e.g. `/Edg\//.test(ua)`. -/
def strContains (s pat : String) : Bool :=
  charsContain s.data pat.data

/-- Case-insensitive literal substring test, e.g. `/Android/i.test(ua)`. -/
def icontains (s pat : String) : Bool :=
  charsContain (s.data.map Char.toLower) (pat.data.map Char.toLower)

/-- Characters matched by the `[0-9.]` character class. -/
def isVerChar (c : Char) : Bool := c.isDigit || c == '.'

/-- Leftmost match of the regex `tok([0-9.]+)`: at the first occurrence of
`tok` that is followed by at least one `[0-9.]` character, capture the
maximal such run (greedy `+`); otherwise keep searching to the right. -/
def capAux : List Char → List Char → Option (List Char)
  | [], _ => none
  | c :: rest, tok =>
    if charsHavePre (c :: rest) tok then
      let ver := (List.drop tok.length (c :: rest)).takeWhile isVerChar
      if ver.isEmpty then capAux rest tok else some ver
    else capAux rest tok

/-- Group-1 capture of `ua.match(/tok([0-9.]+)/)`, `none` when the regex
does not match. -/
def extractCapture (ua tok : String) : Option String :=
  (capAux ua.data tok.data).map fun l => ⟨l⟩

/-- The closed `BrowserName` union from `src/types`. -/
inductive BrowserName
  | chrome | chromium | edge | firefox | safari | opera | brave
  | samsungInternet | vivaldi | arc | seamonkey | opera15plus | opera12minus
  | unknown
deriving DecidableEq, Repr

/-- `BrowserInfo` from `src/types`; `fullVersion` is set only by the
high-entropy merge. -/
structure BrowserInfo where
  name : BrowserName
  version : String
  fullVersion : Option String := none
deriving DecidableEq, Repr

/-- The fields of the DOM `Navigator` object that the detectors read.
`maxTouchPoints := none` models an environment without the property
(the source guards it with a truthiness check, so `none` and `some 0`
behave alike); `braveSignal` models
`"brave" in navigator && typeof navigator.brave?.isBrave === "function"`. -/
structure Navigator where
  userAgent : String
  maxTouchPoints : Option Nat := none
  braveSignal : Bool := false

/-- One entry of `BROWSER_PATTERNS`: the literal of the `pattern` regex and
the literal token of the `versionPattern` regex `verToken([0-9.]+)`. -/
structure BrowserPattern where
  name : BrowserName
  token : String
  verToken : String

/-- `BROWSER_PATTERNS` from `src/constants/patterns.ts`, in source order. -/
def BROWSER_PATTERNS : List BrowserPattern :=
  [ ⟨.edge, "Edg/", "Edg/"⟩,
    ⟨.samsungInternet, "SamsungBrowser/", "SamsungBrowser/"⟩,
    ⟨.vivaldi, "Vivaldi/", "Vivaldi/"⟩,
    ⟨.opera15plus, "OPR/", "OPR/"⟩,
    ⟨.chrome, "Chrome/", "Chrome/"⟩,
    ⟨.chromium, "Chromium/", "Chromium/"⟩,
    ⟨.firefox, "Firefox/", "Firefox/"⟩,
    ⟨.seamonkey, "Seamonkey/", "Seamonkey/"⟩,
    ⟨.safari, "Safari/", "Version/"⟩,
    ⟨.opera12minus, "Opera/", "Opera/"⟩ ]

/-- The entry-specific exclusion checks inside `detectBrowser`'s loop:
Chrome is skipped when another Chromium browser token is present, Firefox
is skipped when the Seamonkey token is present. -/
def browserSkip (name : BrowserName) (ua : String) : Bool :=
  match name with
  | .chrome =>
      strContains ua "Edg/" || strContains ua "SamsungBrowser/" ||
      strContains ua "Vivaldi/" || strContains ua "OPR/"
  | .firefox => strContains ua "Seamonkey/"
  | _ => false

/-- The pattern loop of `detectBrowser`: first non-skipped entry whose
token occurs in `ua` wins; version is the capture or `"Unknown"`. -/
def matchLoop : List BrowserPattern → String → Option BrowserInfo
  | [], _ => none
  | p :: ps, ua =>
    if strContains ua p.token then
      if browserSkip p.name ua then matchLoop ps ua
      else some { name := p.name, version := (extractCapture ua p.verToken).getD "Unknown" }
    else matchLoop ps ua

/-- `detectBrowser` from `src/detectors/userAgentString.ts`: empty
identification string ↦ `none` (the source also returns early for
non-string values, which are outside this embedding's `String` domain);
the Brave capability short-circuits with the Chrome capture; otherwise
the ordered pattern loop runs. -/
def detectBrowser (nav : Navigator) : Option BrowserInfo :=
  if nav.userAgent = "" then none
  else if nav.braveSignal then
    some { name := .brave, version := (extractCapture nav.userAgent "Chrome/").getD "Unknown" }
  else
    matchLoop BROWSER_PATTERNS nav.userAgent

/-- The result the catalog produces for the first present specific
Chromium token, in `BROWSER_PATTERNS` order (Edge, Samsung Internet,
Vivaldi, Opera 15+). -/
def specificChromiumResult (ua : String) : BrowserInfo :=
  if strContains ua "Edg/" then
    ⟨.edge, (extractCapture ua "Edg/").getD "Unknown", none⟩
  else if strContains ua "SamsungBrowser/" then
    ⟨.samsungInternet, (extractCapture ua "SamsungBrowser/").getD "Unknown", none⟩
  else if strContains ua "Vivaldi/" then
    ⟨.vivaldi, (extractCapture ua "Vivaldi/").getD "Unknown", none⟩
  else
    ⟨.opera15plus, (extractCapture ua "OPR/").getD "Unknown", none⟩

/-- The `Platform` union from `src/types`. -/
inductive Platform
  | android | iOS | windows | linux | macOS | chromeOS | unknown
deriving DecidableEq, Repr

/-- The `Device` union from `src/types`. -/
inductive Device
  | android | iPhone | iPad | iPod | desktopPC | tablet | unknown
deriving DecidableEq, Repr

/-- `DeviceInfo` from `src/types`; the three optional fields are set only
by the high-entropy merge. -/
structure DeviceInfo where
  isMobile : Bool
  platform : Platform
  device : Device
  architecture : Option String := none
  model : Option String := none
  platformVersion : Option String := none
deriving DecidableEq, Repr

/-- The source guard `navigator.maxTouchPoints && navigator.maxTouchPoints > 1`:
an absent property is falsy, so the reclassification fires exactly when the
count is present and strictly greater than 1. -/
def touchReclassify (mtp : Option Nat) : Bool :=
  match mtp with
  | none => false
  | some n => decide (n > 1)

/-- The ordered platform branch chain of `detectDeviceFromUA`
(`src/detectors/device.ts`), run on a non-empty identification string. -/
def classifyUA (ua : String) (mtp : Option Nat) : DeviceInfo :=
  if icontains ua "Android" then
    ⟨icontains ua "Mobile", .android,
      if icontains ua "Mobile" then .android else .tablet, none, none, none⟩
  else if icontains ua "iPhone" then ⟨true, .iOS, .iPhone, none, none, none⟩
  else if icontains ua "iPad" then ⟨false, .iOS, .iPad, none, none, none⟩
  else if icontains ua "iPod" then ⟨true, .iOS, .iPod, none, none, none⟩
  else if icontains ua "Win" then
    ⟨icontains ua "Mobile", .windows,
      if icontains ua "Mobile" then .unknown else .desktopPC, none, none, none⟩
  else if icontains ua "Mac" then
    if touchReclassify mtp then ⟨false, .iOS, .iPad, none, none, none⟩
    else ⟨false, .macOS, .desktopPC, none, none, none⟩
  else if icontains ua "CrOS" then ⟨false, .chromeOS, .desktopPC, none, none, none⟩
  else if icontains ua "Linux" then
    ⟨icontains ua "Mobile", .linux,
      if icontains ua "Mobile" then .unknown else .desktopPC, none, none, none⟩
  else ⟨false, .unknown, .unknown, none, none, none⟩

/-- `detectDeviceFromUA` from `src/detectors/device.ts`: absent only for an
empty identification string (non-string values are outside the `String`
domain of this embedding); otherwise the branch chain always produces a
structure, defaulting every field to Unknown / `false`. -/
def detectDeviceFromUA (nav : Navigator) : Option DeviceInfo :=
  if nav.userAgent = "" then none
  else some (classifyUA nav.userAgent nav.maxTouchPoints)

/-- `determineDevice` from `src/detectors/device.ts`. -/
def determineDevice (isMobile : Bool) (platform : Platform) : Device :=
  if platform = .android then (if isMobile then .android else .tablet)
  else if platform = .iOS then (if isMobile then .iPhone else .iPad)
  else if isMobile then .unknown
  else .desktopPC

/-- `mapPlatform` from `src/detectors/device.ts`: case-insensitive
substring mapping of the client-hints platform string. -/
def mapPlatform (platformString : String) : Platform :=
  if icontains platformString "android" then .android
  else if icontains platformString "windows" then .windows
  else if icontains platformString "mac" then .macOS
  else if icontains platformString "linux" then .linux
  else if icontains platformString "chrome os" || icontains platformString "chromeos" then .chromeOS
  else if icontains platformString "ios" || icontains platformString "iphone" ||
    icontains platformString "ipad" then .iOS
  else .unknown

/-- A brand entry of the client-hints `brands` array. -/
structure Brand where
  brand : String
  version : String
deriving DecidableEq, Repr

/-- The synchronously readable fields of `navigator.userAgentData`; the
asynchronous `getHighEntropyValues` capability is modelled separately by
`PromiseBehavior`. -/
structure NavigatorUAData where
  brands : List Brand
  mobile : Bool
  platform : String

/-- `detectDeviceFromClientHints` from `src/detectors/device.ts` (its
catch-all branch is unreachable in this total embedding). -/
def detectDeviceFromClientHints (uad : NavigatorUAData) : DeviceInfo :=
  { isMobile := uad.mobile,
    platform := mapPlatform uad.platform,
    device := determineDevice uad.mobile (mapPlatform uad.platform) }

/-- The `deviceType` labels of `Agent`. -/
inductive DeviceType
  | mobile | tablet | desktop
deriving DecidableEq, Repr

/-- `getDeviceTypeClassification` from `src/detectors/device.ts`: the
tablet shapes are checked before the mobile flag. -/
def getDeviceTypeClassification (isMobile : Bool) (device : Device) : DeviceType :=
  if device = .tablet ∨ device = .iPad then .tablet
  else if isMobile then .mobile
  else .desktop

/-- `isIPad` from `src/detectors/device.ts`: the iPad token, or the
`Macintosh` token together with more than one touch point. -/
def isIPad (nav : Navigator) : Bool :=
  if icontains nav.userAgent "iPad" then true
  else if icontains nav.userAgent "Macintosh" && touchReclassify nav.maxTouchPoints then true
  else false

/-- The `RenderingEngine` union from `src/types`. -/
inductive RenderingEngine
  | blink | gecko | webkit | unknown
deriving DecidableEq, Repr

/-- `RenderingEngineInfo` from `src/types`. -/
structure RenderingEngineInfo where
  name : RenderingEngine
  version : String
deriving DecidableEq, Repr

/-- `CHROMIUM_BROWSERS` from `src/constants/patterns.ts`. -/
def CHROMIUM_BROWSERS : List BrowserName :=
  [.chrome, .chromium, .edge, .brave, .samsungInternet, .vivaldi, .opera15plus]

/-- `GECKO_BROWSERS` from `src/constants/patterns.ts`. -/
def GECKO_BROWSERS : List BrowserName := [.firefox, .seamonkey]

/-- `WEBKIT_BROWSERS` from `src/constants/patterns.ts`. -/
def WEBKIT_BROWSERS : List BrowserName := [.safari]

/-- Blink version extraction in `detectRenderingEngine`: the Chrome
capture, else the Chromium capture, else the literal `"Unknown"`. -/
def blinkVersion (ua : String) : String :=
  match extractCapture ua "Chrome/" with
  | some v => v
  | none =>
    match extractCapture ua "Chromium/" with
    | some v => v
    | none => "Unknown"

/-- `detectRenderingEngine` from `src/detectors/userAgentString.ts`
(src/unnamed/part_005): family lookup through the three static lists, then
engine-specific version extraction from the identification string (an
absent navigator contributes the empty string, on which every capture
fails). -/
def detectRenderingEngine (browser : Option BrowserName) (nav : Option Navigator) :
    Option RenderingEngineInfo :=
  match browser with
  | none => none
  | some b =>
    let ua := match nav with | some n => n.userAgent | none => ""
    if b ∈ CHROMIUM_BROWSERS then some ⟨.blink, blinkVersion ua⟩
    else if b ∈ GECKO_BROWSERS then some ⟨.gecko, (extractCapture ua "rv:").getD "Unknown"⟩
    else if b ∈ WEBKIT_BROWSERS then
      some ⟨.webkit, (extractCapture ua "AppleWebKit/").getD "Unknown"⟩
    else none

/-- The `detectionMethod` tags of `Agent` from `src/types`. -/
inductive DetectionMethod
  | clientHints | userAgentString | ssr
deriving DecidableEq, Repr

/-- The normalized `Agent` result shape from `src/types`. -/
structure Agent where
  device : Option DeviceInfo := none
  browser : Option BrowserInfo := none
  renderingEngine : Option RenderingEngineInfo := none
  detectionMethod : Option DetectionMethod := none
  deviceType : Option DeviceType := none
deriving DecidableEq, Repr

/-- The priority-ordered brand table inside `extractBrowserFromBrands`
(`src/detectors/clientHints.ts`), each regex being a case-insensitive
literal. -/
def browserMap : List (String × BrowserName) :=
  [ ("Microsoft Edge", .edge), ("Brave", .brave), ("Samsung Internet", .samsungInternet),
    ("Vivaldi", .vivaldi), ("Arc", .arc), ("Opera", .opera),
    ("Google Chrome", .chrome), ("Chromium", .chromium) ]

/-- The scan of `browserMap` over the brand list: the first table entry
matched by some brand wins, with that brand's version. -/
def findBrandMatch : List (String × BrowserName) → List Brand → Option BrowserInfo
  | [], _ => none
  | (pat, name) :: rest, brands =>
    match brands.find? (fun b => icontains b.brand pat) with
    | some b => some ⟨name, b.version, none⟩
    | none => findBrandMatch rest brands

/-- `extractBrowserFromBrands` from `src/detectors/clientHints.ts`: the
priority scan, then the fallback to the first brand that is neither a
grease placeholder (`includes("Not")`, case-sensitive) nor the literal
`"Chromium"` brand, classified as Unknown with that brand's version. -/
def extractBrowserFromBrands (brands : List Brand) : Option BrowserInfo :=
  if brands.isEmpty then none
  else
    match findBrandMatch browserMap brands with
    | some bi => some bi
    | none =>
      match brands.find? (fun b => !strContains b.brand "Not" && !(b.brand == "Chromium")) with
      | some b => some ⟨.unknown, b.version, none⟩
      | none => none

/-- `extractLowEntropyData` from `src/detectors/clientHints.ts` (its
catch-all branch is unreachable in this total embedding): browser from the
brand list, device from the low-entropy platform/mobile fields,
`renderingEngine` left absent. -/
def extractLowEntropyData (uad : NavigatorUAData) : Agent :=
  { browser := extractBrowserFromBrands uad.brands,
    device := some (detectDeviceFromClientHints uad),
    renderingEngine := none,
    detectionMethod := some .clientHints,
    deviceType := some (getDeviceTypeClassification
      (detectDeviceFromClientHints uad).isMobile
      (detectDeviceFromClientHints uad).device) }

/-- The response shape of `getHighEntropyValues` (`UADataValues` from
`src/types`); absent optional members are `none`. -/
structure UADataValues where
  brands : List Brand := []
  mobile : Bool := false
  platform : String := ""
  architecture : Option String := none
  bitness : Option String := none
  model : Option String := none
  platformVersion : Option String := none
  uaFullVersion : Option String := none
  fullVersionList : Option (List Brand) := none

/-- JS truthiness of an optional string: present and non-empty. -/
def optTruthy : Option String → Bool
  | none => false
  | some s => !(s == "")

/-- `mergeHighEntropyData` from `src/detectors/clientHints.ts`: copy
architecture/model/platformVersion onto a present device, attach
`fullVersion` to a present browser when the response carries a truthy
full version, and prefer a browser re-extracted from a non-empty
`fullVersionList`. -/
def mergeHighEntropyData (agent : Agent) (hev : UADataValues) : Agent :=
  let a1 :=
    match agent.device with
    | some d =>
      { agent with
        device := some
          { d with
            architecture := hev.architecture
            model := hev.model
            platformVersion := hev.platformVersion } }
    | none => agent
  let a2 :=
    match a1.browser with
    | some b =>
      if optTruthy hev.uaFullVersion then
        { a1 with browser := some { b with fullVersion := hev.uaFullVersion } }
      else a1
    | none => a1
  match hev.fullVersionList with
  | some l =>
    if 0 < l.length then
      match extractBrowserFromBrands l with
      | some b => { a2 with browser := some { b with fullVersion := hev.uaFullVersion } }
      | none => a2
    else a2
  | none => a2

/-- The settlement behaviour of the detail-retrieval promise returned by
`getHighEntropyValues`, as observed by the caller: resolution with a value
at some time (milliseconds), rejection at some time, or no settlement at
all. This models the single asynchronous suspension point of the source. -/
inductive PromiseBehavior
  | resolves (time : Nat) (value : UADataValues)
  | rejects (time : Nat)
  | never

/-- The 5000 ms timeout raced against the retrieval in
`getHighEntropyData`. -/
def TIMEOUT_MS : Nat := 5000

/-- The value produced by awaiting
`Promise.race([getHighEntropyValues(hints), timeout])`: the response when
it resolves strictly before the timer fires, otherwise `none` standing for
the thrown rejection (the retrieval's own, or the timer's `Timeout`
error), which the source catches. -/
def raceResult (p : PromiseBehavior) : Option UADataValues :=
  match p with
  | .resolves t v => if t < TIMEOUT_MS then some v else none
  | .rejects _ => none
  | .never => none

/-- `getHighEntropyData` from `src/detectors/clientHints.ts`: on any
caught rejection or timeout the already-computed low-entropy agent is
returned unchanged; on success the response is merged. -/
def getHighEntropyData (lowEntropyAgent : Agent) (p : PromiseBehavior) : Agent :=
  match raceResult p with
  | none => lowEntropyAgent
  | some v => mergeHighEntropyData lowEntropyAgent v

/-- `UseUserAgentOptions` from `src/types`; the requested hint names only
select which response members the environment fills in, so they live in
the `PromiseBehavior` value here. -/
structure UseUserAgentOptions where
  highEntropy : Bool := false
  hints : Option (List String) := none

/-- `detectFromClientHints` from `src/detectors/clientHints.ts`: absent
hints data yields the minimal client-hints agent; otherwise the
low-entropy extraction runs, and the high-entropy path is entered only
when the caller opted in (the function's value is the eventually resolved
agent). -/
def detectFromClientHints (uad : Option NavigatorUAData) (opts : UseUserAgentOptions)
    (p : PromiseBehavior) : Agent :=
  match uad with
  | none => { detectionMethod := some .clientHints }
  | some u =>
    if opts.highEntropy then getHighEntropyData (extractLowEntropyData u) p
    else extractLowEntropyData u

/-- `areDeviceInfoEqual` from `src/utils/comparison.ts`: both absent is
equal, one absent is unequal, otherwise every declared field is compared,
the high-entropy ones included. -/
def areDeviceInfoEqual : Option DeviceInfo → Option DeviceInfo → Bool
  | none, none => true
  | some a, some b =>
    a.isMobile == b.isMobile && decide (a.platform = b.platform) &&
    decide (a.device = b.device) && decide (a.architecture = b.architecture) &&
    decide (a.model = b.model) && decide (a.platformVersion = b.platformVersion)
  | _, _ => false

/-- `areBrowserInfoEqual` from `src/utils/comparison.ts`. -/
def areBrowserInfoEqual : Option BrowserInfo → Option BrowserInfo → Bool
  | none, none => true
  | some a, some b =>
    decide (a.name = b.name) && decide (a.version = b.version) &&
    decide (a.fullVersion = b.fullVersion)
  | _, _ => false

/-- `areRenderingEngineInfoEqual` from `src/utils/comparison.ts`. -/
def areRenderingEngineInfoEqual : Option RenderingEngineInfo → Option RenderingEngineInfo → Bool
  | none, none => true
  | some a, some b => decide (a.name = b.name) && decide (a.version = b.version)
  | _, _ => false

/-- `areAgentsEqual` from `src/utils/comparison.ts`: the early-return
chain of the source written as one conjunction. -/
def areAgentsEqual (a b : Agent) : Bool :=
  decide (a.detectionMethod = b.detectionMethod) && decide (a.deviceType = b.deviceType) &&
  areDeviceInfoEqual a.device b.device && areBrowserInfoEqual a.browser b.browser &&
  areRenderingEngineInfoEqual a.renderingEngine b.renderingEngine

/-- A concrete low-detail agent used to witness the merge frame
property. -/
def sampleLowAgent : Agent :=
  { device := some ⟨true, .android, .android, none, none, none⟩
    browser := some ⟨.chrome, "120", none⟩
    detectionMethod := some .clientHints
    deviceType := some .mobile }

/-- A concrete high-entropy response used to witness the merge frame
property. -/
def sampleHighEntropy : UADataValues :=
  { architecture := some "arm"
    model := some "Pixel 5"
    platformVersion := some "13"
    uaFullVersion := some "120.0.6099.43"
    fullVersionList := some [⟨"Google Chrome", "120.0.6099.43"⟩] }

/-- A concrete string-parsing result used to witness the equality
properties. -/
def sampleResultA : Agent :=
  { browser := some ⟨.chrome, "120", none⟩, detectionMethod := some .userAgentString }

/-- `sampleResultA` with a single declared field (the browser version)
changed. -/
def sampleResultB : Agent :=
  { browser := some ⟨.chrome, "121", none⟩, detectionMethod := some .userAgentString }

theorem strContains_ne_empty {s pat : String} (h : strContains s pat = true)
    (hp : pat ≠ "") : s ≠ "" := by
  intro hs; subst hs
  have hd : charsContain ([] : List Char) pat.data = true := h
  cases hpat : pat.data with
  | nil =>
    apply hp
    cases pat with
    | mk l => simp at hpat; subst hpat; rfl
  | cons c cs => rw [hpat] at hd; simp [charsContain] at hd

/-- C1: a Chrome-token string that also carries a more specific Chromium
token (Edge, Samsung Internet, Vivaldi or Opera-new), with no Brave
capability signal, is never classified as Chrome: `detectBrowser` returns
the first present specific entry with that entry's captured version. -/
theorem detectBrowser_chrome_disambiguation (ua : String) (mtp : Option Nat)
    (hChrome : strContains ua "Chrome/" = true)
    (hSpec : strContains ua "Edg/" = true ∨ strContains ua "SamsungBrowser/" = true ∨
      strContains ua "Vivaldi/" = true ∨ strContains ua "OPR/" = true) :
    detectBrowser ⟨ua, mtp, false⟩ = some (specificChromiumResult ua) ∧
      (specificChromiumResult ua).name ≠ .chrome := by
  have hne : ua ≠ "" := strContains_ne_empty hChrome (by decide)
  constructor
  · by_cases hE : strContains ua "Edg/" = true
    · simp [detectBrowser, hne, BROWSER_PATTERNS, matchLoop, browserSkip, hE,
        specificChromiumResult]
    · by_cases hS : strContains ua "SamsungBrowser/" = true
      · simp [detectBrowser, hne, BROWSER_PATTERNS, matchLoop, browserSkip, hE, hS,
          specificChromiumResult]
      · by_cases hV : strContains ua "Vivaldi/" = true
        · simp [detectBrowser, hne, BROWSER_PATTERNS, matchLoop, browserSkip, hE, hS, hV,
            specificChromiumResult]
        · have hO : strContains ua "OPR/" = true := by tauto
          simp [detectBrowser, hne, BROWSER_PATTERNS, matchLoop, browserSkip, hE, hS, hV,
            hO, specificChromiumResult]
  · unfold specificChromiumResult
    split_ifs <;> simp

/-- Witness for C1 at the spec's example string: both tokens present, the
result is Edge with the Edge entry's captured version, never Chrome. -/
theorem detectBrowser_chrome_disambiguation_witness :
    (detectBrowser ⟨"Mozilla/5.0 Chrome/120.0.0.0 Safari/537.36 Edg/120.0.0.0", none, false⟩ =
        some (specificChromiumResult "Mozilla/5.0 Chrome/120.0.0.0 Safari/537.36 Edg/120.0.0.0") ∧
      (specificChromiumResult "Mozilla/5.0 Chrome/120.0.0.0 Safari/537.36 Edg/120.0.0.0").name ≠ .chrome) ∧
    specificChromiumResult "Mozilla/5.0 Chrome/120.0.0.0 Safari/537.36 Edg/120.0.0.0" =
      ⟨.edge, "120.0.0.0", none⟩ :=
  ⟨detectBrowser_chrome_disambiguation _ none (by decide) (Or.inl (by decide)),
    by decide⟩

theorem icontains_ne_empty {s pat : String} (h : icontains s pat = true)
    (hp : pat ≠ "") : s ≠ "" := by
  intro hs; subst hs
  have hd : charsContain (([] : List Char).map Char.toLower)
      (pat.data.map Char.toLower) = true := h
  cases hpat : pat.data with
  | nil =>
    apply hp
    cases pat with
    | mk l => simp at hpat; subst hpat; rfl
  | cons c cs => rw [hpat] at hd; simp [charsContain] at hd

/-- C2: a Mac-token identification string (with none of the earlier
Android/iPhone/iPad/iPod/Windows branch tokens) classifies as Mac OS
desktop when the touch-point count is absent, 0 or 1, and is reclassified
as an iOS iPad exactly when the count is strictly greater than 1. -/
theorem detectDeviceFromUA_mac_touch_boundary (ua : String) (mtp : Option Nat)
    (hMac : icontains ua "Mac" = true)
    (hA : icontains ua "Android" = false) (hIp : icontains ua "iPhone" = false)
    (hPad : icontains ua "iPad" = false) (hPod : icontains ua "iPod" = false)
    (hW : icontains ua "Win" = false) :
    detectDeviceFromUA ⟨ua, mtp, false⟩ =
      some (if 1 < mtp.getD 0 then ⟨false, .iOS, .iPad, none, none, none⟩
        else ⟨false, .macOS, .desktopPC, none, none, none⟩) := by
  have hne : ua ≠ "" := icontains_ne_empty hMac (by decide)
  cases mtp with
  | none =>
    simp [detectDeviceFromUA, hne, classifyUA, hA, hIp, hPad, hPod, hW, hMac,
      touchReclassify]
  | some n =>
    by_cases hn : 1 < n
    · simp [detectDeviceFromUA, hne, classifyUA, hA, hIp, hPad, hPod, hW, hMac,
        touchReclassify, hn]
    · simp [detectDeviceFromUA, hne, classifyUA, hA, hIp, hPad, hPod, hW, hMac,
        touchReclassify, hn]

/-- Witness for C2: the same Mac identification string with touch-point
counts 1 and 2, covering the exact boundary. -/
theorem detectDeviceFromUA_mac_touch_boundary_witness :
    detectDeviceFromUA ⟨"Mozilla/5.0 (Macintosh; Intel Mac OS X 10_15_7)", some 1, false⟩ =
      some (if 1 < (some 1 : Option Nat).getD 0 then ⟨false, .iOS, .iPad, none, none, none⟩
        else ⟨false, .macOS, .desktopPC, none, none, none⟩) ∧
    detectDeviceFromUA ⟨"Mozilla/5.0 (Macintosh; Intel Mac OS X 10_15_7)", some 2, false⟩ =
      some (if 1 < (some 2 : Option Nat).getD 0 then ⟨false, .iOS, .iPad, none, none, none⟩
        else ⟨false, .macOS, .desktopPC, none, none, none⟩) :=
  ⟨detectDeviceFromUA_mac_touch_boundary _ _ (by decide) (by decide) (by decide)
      (by decide) (by decide) (by decide),
    detectDeviceFromUA_mac_touch_boundary _ _ (by decide) (by decide) (by decide)
      (by decide) (by decide) (by decide)⟩

/-- C4: every `DeviceInfo` produced by the string path, the client-hints
path or `determineDevice` satisfies the invariant that a Tablet or iPad
classification is never mobile-flagged. -/
theorem deviceInfo_tablet_never_mobile :
    (∀ (nav : Navigator) (d : DeviceInfo), detectDeviceFromUA nav = some d →
      d.device = .tablet ∨ d.device = .iPad → d.isMobile = false) ∧
    (∀ uad : NavigatorUAData,
      (detectDeviceFromClientHints uad).device = .tablet ∨
        (detectDeviceFromClientHints uad).device = .iPad →
      (detectDeviceFromClientHints uad).isMobile = false) ∧
    (∀ (m : Bool) (p : Platform),
      determineDevice m p = .tablet ∨ determineDevice m p = .iPad → m = false) := by
  have hdet : ∀ (m : Bool) (p : Platform),
      determineDevice m p = .tablet ∨ determineDevice m p = .iPad → m = false := by
    intro m p h
    cases p <;> cases m <;> simp_all [determineDevice]
  refine ⟨?_, ?_, hdet⟩
  · intro nav d h hdev
    unfold detectDeviceFromUA at h
    split at h
    · exact Option.noConfusion h
    · injection h with h2
      subst h2
      revert hdev
      unfold classifyUA
      split_ifs <;> simp_all
  · intro uad hdev
    exact hdet uad.mobile (mapPlatform uad.platform) hdev

/-- Witness for C4: an Android tablet string yields a Tablet with
`isMobile = false`, and `determineDevice` on a non-mobile iOS hint is an
iPad coming from a `false` mobile flag. -/
theorem deviceInfo_tablet_never_mobile_witness :
    (∀ d : DeviceInfo,
      detectDeviceFromUA ⟨"Mozilla/5.0 (Linux; Android 11) Safari", none, false⟩ = some d →
      d.device = .tablet ∨ d.device = .iPad → d.isMobile = false) ∧
    (determineDevice false .iOS = .iPad → (false : Bool) = false) :=
  ⟨fun d h hd => deviceInfo_tablet_never_mobile.1 _ d h hd,
    fun h => deviceInfo_tablet_never_mobile.2.2 false .iOS (Or.inr h)⟩

/-- C6: on a non-empty identification string `detectDeviceFromUA` always
returns a present structure (the all-Unknown default when no platform
token matches); it returns absent exactly for the empty string (non-string
values lie outside the `String` domain of this embedding, and the function
is total, so it never throws). -/
theorem detectDeviceFromUA_total (ua : String) (mtp : Option Nat) (bv : Bool) :
    (ua ≠ "" → ∃ d, detectDeviceFromUA ⟨ua, mtp, bv⟩ = some d) ∧
    (ua = "" → detectDeviceFromUA ⟨ua, mtp, bv⟩ = none) ∧
    (icontains ua "Android" = false → icontains ua "iPhone" = false →
      icontains ua "iPad" = false → icontains ua "iPod" = false →
      icontains ua "Win" = false → icontains ua "Mac" = false →
      icontains ua "CrOS" = false → icontains ua "Linux" = false → ua ≠ "" →
      detectDeviceFromUA ⟨ua, mtp, bv⟩ =
        some ⟨false, .unknown, .unknown, none, none, none⟩) := by
  refine ⟨?_, ?_, ?_⟩
  · intro h
    exact ⟨classifyUA ua mtp, by simp [detectDeviceFromUA, h]⟩
  · intro h
    simp [detectDeviceFromUA, h]
  · intro h1 h2 h3 h4 h5 h6 h7 h8 h9
    simp [detectDeviceFromUA, classifyUA, h1, h2, h3, h4, h5, h6, h7, h8, h9]

/-- Witness for C6: a token-free non-empty string yields the all-Unknown
default, and the empty string yields absent. -/
theorem detectDeviceFromUA_total_witness :
    (∃ d, detectDeviceFromUA ⟨"hello", none, false⟩ = some d) ∧
    detectDeviceFromUA ⟨"", none, false⟩ = none ∧
    detectDeviceFromUA ⟨"hello", none, false⟩ =
      some ⟨false, .unknown, .unknown, none, none, none⟩ :=
  ⟨(detectDeviceFromUA_total "hello" none false).1 (by decide),
    (detectDeviceFromUA_total "" none false).2.1 rfl,
    (detectDeviceFromUA_total "hello" none false).2.2 (by decide) (by decide) (by decide)
      (by decide) (by decide) (by decide) (by decide) (by decide) (by decide)⟩

/-- C9 counterexample: on the string `"iPhone iPad"` the standalone
predicate `isIPad` answers `true` while `detectDeviceFromUA` classifies
the device as iPhone, so the claimed equivalence fails as stated. -/
theorem isIPad_mirror_counterexample :
    ¬ (isIPad ⟨"iPhone iPad", none, false⟩ = true ↔
      (detectDeviceFromUA ⟨"iPhone iPad", none, false⟩).map DeviceInfo.device =
        some Device.iPad) := by
  decide

/-- C9 (amended): `isIPad` is exactly "iPad token present, or Macintosh
token present with touch-point count > 1"; it coincides with
`detectDeviceFromUA`'s iPad classification on every navigator whose
identification string lacks the earlier Android/iPhone/iPod/Windows branch
tokens and contains the Mac token exactly when it contains the Macintosh
token. -/
theorem isIPad_matches_detectDeviceFromUA (ua : String) (mtp : Option Nat)
    (hA : icontains ua "Android" = false) (hIp : icontains ua "iPhone" = false)
    (hPod : icontains ua "iPod" = false) (hW : icontains ua "Win" = false)
    (hM : icontains ua "Mac" = icontains ua "Macintosh") :
    isIPad ⟨ua, mtp, false⟩ =
      (icontains ua "iPad" || (icontains ua "Macintosh" && touchReclassify mtp)) ∧
    (isIPad ⟨ua, mtp, false⟩ = true ↔
      (detectDeviceFromUA ⟨ua, mtp, false⟩).map DeviceInfo.device = some Device.iPad) := by
  constructor
  · by_cases hPad : icontains ua "iPad" = true
    · simp [isIPad, hPad]
    · by_cases hMacin : icontains ua "Macintosh" = true
      · cases ht : touchReclassify mtp <;> simp [isIPad, hPad, hMacin, ht]
      · simp [isIPad, hPad, hMacin]
  · by_cases hempty : ua = ""
    · subst hempty
      simp [isIPad, detectDeviceFromUA, icontains, charsContain]
    · by_cases hPad : icontains ua "iPad" = true
      · simp [isIPad, detectDeviceFromUA, hempty, classifyUA, hA, hIp, hPad]
      · by_cases hMacin : icontains ua "Macintosh" = true
        · have hMac : icontains ua "Mac" = true := by rw [hM, hMacin]
          cases ht : touchReclassify mtp
          · simp [isIPad, detectDeviceFromUA, hempty, classifyUA, hA, hIp, hPad,
              hPod, hW, hMac, hMacin, ht]
          · simp [isIPad, detectDeviceFromUA, hempty, classifyUA, hA, hIp, hPad,
              hPod, hW, hMac, hMacin, ht]
        · have hMacin2 : icontains ua "Macintosh" = false := by
            simpa using hMacin
          have hMac : icontains ua "Mac" = false := by rw [hM, hMacin2]
          simp only [isIPad, detectDeviceFromUA, hempty, classifyUA, hA, hIp, hPad,
            hPod, hW, hMac, hMacin2, if_false, Bool.false_and, Bool.and_self]
          split_ifs <;> simp_all

/-- Witness for C9 (amended): a masquerading-iPad navigator (Macintosh
token, 5 touch points) on which both the predicate and the detector agree
on iPad. -/
theorem isIPad_matches_detectDeviceFromUA_witness :
    isIPad ⟨"Mozilla/5.0 (Macintosh; Intel Mac OS X 10_15_7)", some 5, false⟩ =
      (icontains "Mozilla/5.0 (Macintosh; Intel Mac OS X 10_15_7)" "iPad" ||
        (icontains "Mozilla/5.0 (Macintosh; Intel Mac OS X 10_15_7)" "Macintosh" &&
          touchReclassify (some 5))) ∧
    (isIPad ⟨"Mozilla/5.0 (Macintosh; Intel Mac OS X 10_15_7)", some 5, false⟩ = true ↔
      (detectDeviceFromUA ⟨"Mozilla/5.0 (Macintosh; Intel Mac OS X 10_15_7)", some 5, false⟩).map
          DeviceInfo.device = some Device.iPad) :=
  isIPad_matches_detectDeviceFromUA _ _ (by decide) (by decide) (by decide) (by decide)
    (by decide)

/-- C3: the engine lookup maps the seven Chromium-family names to Blink,
Firefox and Seamonkey to Gecko, Safari to WebKit; every other browser
name — and an absent browser name — yields absent, never the Unknown
sentinel; and when a family is found but the engine version tokens do not
match, the version is the literal `"Unknown"`. -/
theorem detectRenderingEngine_lookup (b : BrowserName) (ua : String) :
    (b ∈ CHROMIUM_BROWSERS →
      (detectRenderingEngine (some b) (some ⟨ua, none, false⟩)).map RenderingEngineInfo.name =
        some .blink) ∧
    (b ∈ GECKO_BROWSERS →
      (detectRenderingEngine (some b) (some ⟨ua, none, false⟩)).map RenderingEngineInfo.name =
        some .gecko) ∧
    (b ∈ WEBKIT_BROWSERS →
      (detectRenderingEngine (some b) (some ⟨ua, none, false⟩)).map RenderingEngineInfo.name =
        some .webkit) ∧
    (b ∉ CHROMIUM_BROWSERS → b ∉ GECKO_BROWSERS → b ∉ WEBKIT_BROWSERS →
      detectRenderingEngine (some b) (some ⟨ua, none, false⟩) = none) ∧
    detectRenderingEngine none (some ⟨ua, none, false⟩) = none ∧
    (∀ e, detectRenderingEngine (some b) (some ⟨ua, none, false⟩) = some e →
      e.name ≠ .unknown) ∧
    (b ∈ CHROMIUM_BROWSERS → extractCapture ua "Chrome/" = none →
      extractCapture ua "Chromium/" = none →
      (detectRenderingEngine (some b) (some ⟨ua, none, false⟩)).map RenderingEngineInfo.version =
        some "Unknown") ∧
    (b ∈ GECKO_BROWSERS → extractCapture ua "rv:" = none →
      (detectRenderingEngine (some b) (some ⟨ua, none, false⟩)).map RenderingEngineInfo.version =
        some "Unknown") ∧
    (b ∈ WEBKIT_BROWSERS → extractCapture ua "AppleWebKit/" = none →
      (detectRenderingEngine (some b) (some ⟨ua, none, false⟩)).map RenderingEngineInfo.version =
        some "Unknown") := by
  refine ⟨?_, ?_, ?_, ?_, rfl, ?_, ?_, ?_, ?_⟩
  · intro hb
    cases b <;> simp_all [detectRenderingEngine, CHROMIUM_BROWSERS]
  · intro hb
    cases b <;>
      simp_all [detectRenderingEngine, CHROMIUM_BROWSERS, GECKO_BROWSERS]
  · intro hb
    cases b <;>
      simp_all [detectRenderingEngine, CHROMIUM_BROWSERS, GECKO_BROWSERS, WEBKIT_BROWSERS]
  · intro h1 h2 h3
    cases b <;>
      simp_all [detectRenderingEngine, CHROMIUM_BROWSERS, GECKO_BROWSERS, WEBKIT_BROWSERS]
  · intro e he
    cases b <;>
      simp_all [detectRenderingEngine, CHROMIUM_BROWSERS, GECKO_BROWSERS, WEBKIT_BROWSERS] <;>
      simp [← he]
  · intro hb h1 h2
    cases b <;>
      simp_all [detectRenderingEngine, CHROMIUM_BROWSERS, blinkVersion]
  · intro hb h1
    cases b <;>
      simp_all [detectRenderingEngine, CHROMIUM_BROWSERS, GECKO_BROWSERS]
  · intro hb h1
    cases b <;>
      simp_all [detectRenderingEngine, CHROMIUM_BROWSERS, GECKO_BROWSERS, WEBKIT_BROWSERS]

/-- Witness for C3: Edge is Blink, Firefox is Gecko, Safari is WebKit,
Opera and Arc yield absent, and a token-free string gives the `"Unknown"`
version literal. -/
theorem detectRenderingEngine_lookup_witness :
    ((detectRenderingEngine (some .edge) (some ⟨"x", none, false⟩)).map RenderingEngineInfo.name =
      some .blink) ∧
    (detectRenderingEngine (some .opera) (some ⟨"x", none, false⟩) = none) ∧
    (detectRenderingEngine (some .arc) (some ⟨"x", none, false⟩) = none) ∧
    ((detectRenderingEngine (some .chrome) (some ⟨"x", none, false⟩)).map
        RenderingEngineInfo.version = some "Unknown") :=
  ⟨(detectRenderingEngine_lookup .edge "x").1 (by decide),
    (detectRenderingEngine_lookup .opera "x").2.2.2.1 (by decide) (by decide) (by decide),
    (detectRenderingEngine_lookup .arc "x").2.2.2.1 (by decide) (by decide) (by decide),
    (detectRenderingEngine_lookup .chrome "x").2.2.2.2.2.2.1 (by decide) (by decide)
      (by decide)⟩

theorem capAux_ne_nil : ∀ (s tok l : List Char), capAux s tok = some l → l ≠ [] := by
  intro s
  induction s with
  | nil => intro tok l h; simp [capAux] at h
  | cons c rest ih =>
    intro tok l h
    simp only [capAux] at h
    split at h
    · split at h
      · exact ih tok l h
      · injection h with h2
        subst h2
        simp_all
    · exact ih tok l h

theorem extractCapture_ne_empty {ua tok v : String}
    (h : extractCapture ua tok = some v) : v ≠ "" := by
  unfold extractCapture at h
  cases hc : capAux ua.data tok.data with
  | none => rw [hc] at h; simp at h
  | some l =>
    rw [hc] at h
    simp at h
    have hl : l ≠ [] := capAux_ne_nil _ _ _ hc
    intro hv
    rw [← h] at hv
    exact hl (by simpa [String.ext_iff] using hv)

theorem matchLoop_version_ne_empty :
    ∀ (ps : List BrowserPattern) (ua : String) (bi : BrowserInfo),
      matchLoop ps ua = some bi → bi.version ≠ "" := by
  intro ps
  induction ps with
  | nil => intro ua bi h; simp [matchLoop] at h
  | cons p rest ih =>
    intro ua bi h
    simp only [matchLoop] at h
    split at h
    · split at h
      · exact ih ua bi h
      · injection h with h2
        subst h2
        simp only []
        cases hc : extractCapture ua p.verToken with
        | none => simp [hc]
        | some v => simpa [hc] using extractCapture_ne_empty hc
    · exact ih ua bi h

theorem findBrandMatch_version_mem :
    ∀ (tbl : List (String × BrowserName)) (brands : List Brand) (bi : BrowserInfo),
      findBrandMatch tbl brands = some bi → ∃ b ∈ brands, bi.version = b.version := by
  intro tbl
  induction tbl with
  | nil => intro brands bi h; simp [findBrandMatch] at h
  | cons p rest ih =>
    intro brands bi h
    obtain ⟨pat, name⟩ := p
    simp only [findBrandMatch] at h
    cases hf : brands.find? (fun b => icontains b.brand pat) with
    | some b =>
      rw [hf] at h
      injection h with h2
      subst h2
      exact ⟨b, List.mem_of_find?_eq_some hf, rfl⟩
    | none =>
      rw [hf] at h
      exact ih brands bi h

theorem extractBrowserFromBrands_version_mem {brands : List Brand} {bi : BrowserInfo}
    (h : extractBrowserFromBrands brands = some bi) : ∃ b ∈ brands, bi.version = b.version := by
  unfold extractBrowserFromBrands at h
  split at h
  · exact Option.noConfusion h
  · split at h
    · injection h with h2
      subst h2
      exact findBrandMatch_version_mem _ _ _ (by assumption)
    · cases hf : brands.find? (fun b => !strContains b.brand "Not" && !(b.brand == "Chromium")) with
      | some b =>
        rw [hf] at h
        injection h with h2
        subst h2
        exact ⟨b, List.mem_of_find?_eq_some hf, rfl⟩
      | none => rw [hf] at h; exact Option.noConfusion h

/-- C8 counterexample: a brand list whose matching entry carries an empty
version makes the brand path produce a `BrowserInfo` with an empty version
string (no `"Unknown"` placeholder is substituted there), so the claim as
stated fails. -/
theorem browser_version_empty_counterexample :
    (extractBrowserFromBrands [⟨"Google Chrome", ""⟩]).map BrowserInfo.version = some "" := by
  decide

/-- C8 (amended): the string path never produces an empty version — the
`"Unknown"` placeholder is used when no version token matches — and the
brand path copies the matched brand's version verbatim, so its version is
non-empty whenever every brand version of the input is non-empty. -/
theorem browser_version_never_empty :
    (∀ (nav : Navigator) (bi : BrowserInfo), detectBrowser nav = some bi → bi.version ≠ "") ∧
    (∀ (brands : List Brand) (bi : BrowserInfo), (∀ b ∈ brands, b.version ≠ "") →
      extractBrowserFromBrands brands = some bi → bi.version ≠ "") := by
  constructor
  · intro nav bi h
    unfold detectBrowser at h
    split at h
    · exact Option.noConfusion h
    · split at h
      · injection h with h2
        subst h2
        simp only []
        cases hc : extractCapture nav.userAgent "Chrome/" with
        | none => simp [hc]
        | some v => simpa [hc] using extractCapture_ne_empty hc
      · exact matchLoop_version_ne_empty _ _ _ h
  · intro brands bi hall h
    obtain ⟨b, hb, hv⟩ := extractBrowserFromBrands_version_mem h
    rw [hv]
    exact hall b hb

/-- Witness for C8 (amended): both parts applied at concrete inputs. -/
theorem browser_version_never_empty_witness :
    (⟨.chrome, "99", none⟩ : BrowserInfo).version ≠ "" ∧
    (⟨.unknown, "9", none⟩ : BrowserInfo).version ≠ "" :=
  ⟨browser_version_never_empty.1 ⟨"Chrome/99", none, false⟩ _ (by decide),
    browser_version_never_empty.2 [⟨"Weird", "9"⟩] _ (by decide) (by decide)⟩

/-- C10: the high-entropy merge leaves the low-detail classification core
unchanged — `detectionMethod`, `deviceType` and `renderingEngine` are
exactly the input's, an absent device stays absent, and a present device
keeps its `isMobile`, `platform` and `device` fields, gaining only
`architecture`, `model` and `platformVersion` from the response. -/
theorem mergeHighEntropyData_frame (agent : Agent) (hev : UADataValues) :
    (mergeHighEntropyData agent hev).detectionMethod = agent.detectionMethod ∧
    (mergeHighEntropyData agent hev).deviceType = agent.deviceType ∧
    (mergeHighEntropyData agent hev).renderingEngine = agent.renderingEngine ∧
    (agent.device = none → (mergeHighEntropyData agent hev).device = none) ∧
    (∀ d, agent.device = some d →
      (mergeHighEntropyData agent hev).device = some
        { d with
          architecture := hev.architecture
          model := hev.model
          platformVersion := hev.platformVersion }) := by
  obtain ⟨dev, br, re, dm, dt⟩ := agent
  obtain ⟨hB, hM, hP, hA, hBi, hMo, hPV, hFV, hFVL⟩ := hev
  cases dev <;> cases br <;> cases hFVL <;>
    simp only [mergeHighEntropyData] <;>
    (try split_ifs) <;>
    (try split) <;>
    simp_all

/-- Witness for C10 at a concrete low-detail agent and response. -/
theorem mergeHighEntropyData_frame_witness :
    (mergeHighEntropyData sampleLowAgent sampleHighEntropy).device =
      some ⟨true, .android, .android, some "arm", some "Pixel 5", some "13"⟩ := by
  simpa using (mergeHighEntropyData_frame sampleLowAgent sampleHighEntropy).2.2.2.2
    ⟨true, .android, .android, none, none, none⟩ rfl

theorem areDeviceInfoEqual_iff (x y : Option DeviceInfo) :
    areDeviceInfoEqual x y = true ↔ x = y := by
  cases x with
  | none => cases y <;> simp [areDeviceInfoEqual]
  | some a =>
    cases y with
    | none => simp [areDeviceInfoEqual]
    | some b =>
      obtain ⟨a1, a2, a3, a4, a5, a6⟩ := a
      obtain ⟨b1, b2, b3, b4, b5, b6⟩ := b
      simp [areDeviceInfoEqual, and_assoc]

theorem areBrowserInfoEqual_iff (x y : Option BrowserInfo) :
    areBrowserInfoEqual x y = true ↔ x = y := by
  cases x with
  | none => cases y <;> simp [areBrowserInfoEqual]
  | some a =>
    cases y with
    | none => simp [areBrowserInfoEqual]
    | some b =>
      obtain ⟨a1, a2, a3⟩ := a
      obtain ⟨b1, b2, b3⟩ := b
      simp [areBrowserInfoEqual, and_assoc]

theorem areRenderingEngineInfoEqual_iff (x y : Option RenderingEngineInfo) :
    areRenderingEngineInfoEqual x y = true ↔ x = y := by
  cases x with
  | none => cases y <;> simp [areRenderingEngineInfoEqual]
  | some a =>
    cases y with
    | none => simp [areRenderingEngineInfoEqual]
    | some b =>
      obtain ⟨a1, a2⟩ := a
      obtain ⟨b1, b2⟩ := b
      simp [areRenderingEngineInfoEqual]

theorem areAgentsEqual_iff (a b : Agent) : areAgentsEqual a b = true ↔ a = b := by
  obtain ⟨d1, b1, r1, m1, t1⟩ := a
  obtain ⟨d2, b2, r2, m2, t2⟩ := b
  simp [areAgentsEqual, areDeviceInfoEqual_iff, areBrowserInfoEqual_iff,
    areRenderingEngineInfoEqual_iff, and_assoc]
  tauto

/-- C5: with high detail requested, a detail-retrieval promise that
rejects (at any time), never settles, or resolves only at or after the
5-second timeout leaves `detectFromClientHints` with exactly the
already-computed low-detail agent — equal to it under the structural
equality check — and, the embedding being total, no error reaches the
caller. -/
theorem detectFromClientHints_graceful_degradation (uad : NavigatorUAData)
    (opts : UseUserAgentOptions) (tr t : Nat) (v : UADataValues)
    (hHE : opts.highEntropy = true) (hLate : TIMEOUT_MS ≤ t) :
    detectFromClientHints (some uad) opts (.rejects tr) = extractLowEntropyData uad ∧
    detectFromClientHints (some uad) opts .never = extractLowEntropyData uad ∧
    detectFromClientHints (some uad) opts (.resolves t v) = extractLowEntropyData uad ∧
    areAgentsEqual (detectFromClientHints (some uad) opts (.rejects tr))
      (extractLowEntropyData uad) = true := by
  have hnot : ¬ t < TIMEOUT_MS := Nat.not_lt.mpr hLate
  refine ⟨?_, ?_, ?_, ?_⟩
  · simp [detectFromClientHints, getHighEntropyData, raceResult, hHE]
  · simp [detectFromClientHints, getHighEntropyData, raceResult, hHE]
  · simp [detectFromClientHints, getHighEntropyData, raceResult, hHE, hnot]
  · rw [areAgentsEqual_iff]
    simp [detectFromClientHints, getHighEntropyData, raceResult, hHE]

/-- Witness for C5 at a concrete hints object, a rejection at 0 ms and a
resolution at exactly 5000 ms. -/
theorem detectFromClientHints_graceful_degradation_witness :
    detectFromClientHints (some ⟨[⟨"Google Chrome", "120"⟩], true, "Android"⟩)
        ⟨true, none⟩ (.rejects 0) =
      extractLowEntropyData ⟨[⟨"Google Chrome", "120"⟩], true, "Android"⟩ ∧
    detectFromClientHints (some ⟨[⟨"Google Chrome", "120"⟩], true, "Android"⟩)
        ⟨true, none⟩ .never =
      extractLowEntropyData ⟨[⟨"Google Chrome", "120"⟩], true, "Android"⟩ ∧
    detectFromClientHints (some ⟨[⟨"Google Chrome", "120"⟩], true, "Android"⟩)
        ⟨true, none⟩ (.resolves 5000 {}) =
      extractLowEntropyData ⟨[⟨"Google Chrome", "120"⟩], true, "Android"⟩ ∧
    areAgentsEqual
      (detectFromClientHints (some ⟨[⟨"Google Chrome", "120"⟩], true, "Android"⟩)
        ⟨true, none⟩ (.rejects 0))
      (extractLowEntropyData ⟨[⟨"Google Chrome", "120"⟩], true, "Android"⟩) = true :=
  detectFromClientHints_graceful_degradation _ _ 0 5000 {} rfl (by decide)

/-- C7: the structural equality over results holds exactly on equal
values — so it is reflexive, symmetric, two independently constructed
structurally identical results are equal, and a change to any declared
field (making the values differ) makes them unequal. -/
theorem areAgentsEqual_structural (a b : Agent) :
    (areAgentsEqual a b = true ↔ a = b) ∧
    areAgentsEqual a a = true ∧
    areAgentsEqual a b = areAgentsEqual b a := by
  refine ⟨areAgentsEqual_iff a b, (areAgentsEqual_iff a a).mpr rfl, ?_⟩
  by_cases he : a = b
  · subst he; rfl
  · have e1 : areAgentsEqual a b = false :=
      Bool.eq_false_iff.mpr fun hb => he ((areAgentsEqual_iff a b).mp hb)
    have e2 : areAgentsEqual b a = false :=
      Bool.eq_false_iff.mpr fun hb => he ((areAgentsEqual_iff b a).mp hb).symm
    rw [e1, e2]

/-- Witness for C7 at two concrete structurally identical results and at
one differing in a single field. -/
theorem areAgentsEqual_structural_witness :
    areAgentsEqual sampleResultA sampleResultA = true ∧
    (areAgentsEqual sampleResultA sampleResultB = true ↔ sampleResultA = sampleResultB) :=
  ⟨(areAgentsEqual_structural sampleResultA sampleResultA).2.1,
    (areAgentsEqual_structural sampleResultA sampleResultB).1⟩

end UseAgent
